import Mathlib

/-!
# Verification of the agentic-RAG workflow backend

Shallow embedding of the Python backend (`backend/config.py`, `backend/utils.py`,
`backend/retrieve.py`, `backend/synthesize.py`, `backend/safety.py`,
`backend/graph.py`, `backend/app.py`) and proofs of the specification claims.

External collaborators (the language model, the FAISS retriever, the
cross-encoder reranker) are modelled as explicit parameters: a fallible call
is a function into `Except String _`, an infallible one a plain function.
-/

namespace RAG

/-- Message roles, mirroring `HumanMessage` / `AIMessage` from langchain. -/
inductive Role where
  | user
  | assistant
deriving DecidableEq, Repr

/-- A chat message (`HumanMessage(content=...)` / `AIMessage(content=...)`). -/
structure Message where
  role : Role
  content : String
deriving DecidableEq, Repr

/-- The `State` TypedDict from `graph.py`: messages, context, query. -/
structure State where
  messages : List Message
  context : String
  query : String
deriving DecidableEq, Repr

/-- A retrieved document; only `page_content` is consumed by the core. -/
structure Doc where
  page_content : String
deriving DecidableEq, Repr

/-- The `StructuredAnswer` pydantic model from `synthesize.py`. -/
structure StructuredAnswer where
  answer : String
  citations : List String
deriving DecidableEq, Repr

/-- The language-model capability: `invoke` is `llm.invoke(prompt).content`
(fallible), `invokeStructured` is
`llm.with_structured_output(StructuredAnswer).invoke(prompt)` (fallible;
an error covers both schema-validation failure and provider errors, since
the Python code catches every exception from the structured call alike). -/
structure LLM where
  invoke : String → Except String String
  invokeStructured : String → Except String StructuredAnswer

/-- The `Settings` record from `config.py` (the fields the core reads). -/
structure Settings where
  llm_provider : String
  top_k : Nat
  context_budget : Nat
  timeout_sec : Nat
deriving DecidableEq, Repr

/-- The default values declared in `config.py`. -/
def defaultSettings : Settings :=
  { llm_provider := "groq", top_k := 5, context_budget := 2000, timeout_sec := 30 }

/-- The process environment: the (optionally configured) LLM — `llm = None`
when `get_llm()` raised at import time — the retrieval index behind
`vectorstore.as_retriever(search_kwargs={"k": settings.top_k})` (a function of
query and k), the cross-encoder score for a (query, passage) pair, and the
settings. Scores are modelled as integers; the claims do not depend on their
scale, only on their order. -/
structure Env where
  llm : Option LLM
  index : String → Nat → List Doc
  scorer : String → String → Int
  settings : Settings

/-- Model of `state["messages"][-1].content`; total via a default, used by the graph
only on non-empty conversations (the initial state already has one message). -/
def lastMessageContent (msgs : List Message) : String :=
  (msgs.getLastD ⟨Role.user, ""⟩).content

/-! ## utils.py — retry_with_backoff (tenacity semantics) -/

/-- Model of `tenacity.wait_exponential(multiplier, min=1, max=10)`: the delay after
the `attemptNumber`-th failed attempt is
`max(min, min(multiplier * 2^(attemptNumber-1), max))`. -/
def waitExponential (multiplier minW maxW attemptNumber : Nat) : Nat :=
  max minW (min (multiplier * 2 ^ (attemptNumber - 1)) maxW)

/-- Core retry loop. `op n` is the outcome of the n-th invocation (attempts
are numbered from 1, as in tenacity). `fuel` is the number of retries still
allowed after the current attempt. Returns the final outcome and the list of
sleep delays performed (one per retried failure). On exhaustion the last
failure is returned (tenacity surfaces it as `RetryError(last_attempt)`;
we model the propagated failure by its payload). -/
def retryGo (op : Nat → Except E A) (backoff : Nat) :
    Nat → Nat → Except E A × List Nat
  | attempt, fuel =>
    match op attempt, fuel with
    | .ok a, _ => (.ok a, [])
    | .error e, 0 => (.error e, [])
    | .error _, fuel' + 1 =>
      let d := waitExponential backoff 1 10 attempt
      let rest := retryGo op backoff (attempt + 1) fuel'
      (rest.1, d :: rest.2)

/-- Model of `retry_with_backoff(retries, backoff_in_seconds)` from `utils.py`:
`retry(stop=stop_after_attempt(retries), wait=wait_exponential(multiplier=backoff, min=1, max=10))`.
At most `retries` total attempts, numbered from 1. -/
def retry_with_backoff (retries backoff : Nat) (op : Nat → Except E A) :
    Except E A × List Nat :=
  retryGo op backoff 1 (retries - 1)

/-! ## safety.py -/

/-- Python `str.strip()` on the claims' ASCII inputs: drop whitespace from
both ends. -/
def pyStrip (s : String) : String :=
  ⟨((s.data.dropWhile Char.isWhitespace).reverse.dropWhile Char.isWhitespace).reverse⟩

/-- Python `str.lower()` on the claims' ASCII inputs. -/
def pyLower (s : String) : String :=
  ⟨s.data.map Char.toLower⟩

/-- The faithfulness prompt built in `safety_check`. -/
def safetyPrompt (answer context : String) : String :=
  "Is this answer faithful to the context? Answer: " ++ answer ++
    "\nContext: " ++ context ++ "\nReply yes/no."

/-- Model of `safety_check(answer, context)` from `safety.py`: `True` when no LLM is
configured; `True` when the LLM call raises; otherwise the stripped,
lowercased reply must be exactly `"yes"`. -/
def safety_check (llm : Option LLM) (answer context : String) : Bool :=
  match llm with
  | none => true
  | some l =>
    match l.invoke (safetyPrompt answer context) with
    | .error _ => true
    | .ok response => pyLower (pyStrip response) == "yes"

/-! ## synthesize.py -/

/-- The synthesis prompt built in `synthesize_answer`. -/
def synthPrompt (query context : String) : String :=
  "Answer based on context: " ++ context ++ "\nQuery: " ++ query ++
    "\nProvide citations."

/-- Model of `synthesize_answer(query, context)` from `synthesize.py`. With no LLM it
returns the deterministic error-indicating string. Otherwise it tries the
structured completion; on success it formats answer plus citations; on any
failure it falls back to a plain completion with the same prompt, whose own
failure propagates (the fallback call is outside the `try`'s protection). -/
def synthesize_answer (llm : Option LLM) (query context : String) :
    Except String String :=
  match llm with
  | none => .ok ("Error: LLM not configured. Query: " ++ query)
  | some l =>
    let prompt := synthPrompt query context
    match l.invokeStructured prompt with
    | .ok response =>
      .ok (response.answer ++ " (Citations: " ++
        String.intercalate ", " response.citations ++ ")")
    | .error _ =>
      match l.invoke prompt with
      | .ok r => .ok r
      | .error e => .error e

/-! ## retrieve.py -/

/-- Model of `retrieve_docs(query, top_k)`: calls `retriever.invoke(query)`. The
`top_k` parameter is ignored by the body; the retriever object was built at
module level with `search_kwargs={"k": settings.top_k}`, so the index is
queried with the configured k. -/
def retrieve_docs (env : Env) (query : String) (_top_k : Nat) : List Doc :=
  env.index query env.settings.top_k

/-- The descending-score order used by
`sorted(zip(scores, docs), reverse=True)`. On tied scores the Python sort
would compare the `Document` objects (raising `TypeError`), so the model is
only exercised on tie-free executions, where the relative placement of
equal scores is immaterial. -/
def scoreGE (a b : Int × Doc) : Prop := b.1 ≤ a.1

instance : DecidableRel scoreGE := fun a b => inferInstanceAs (Decidable (b.1 ≤ a.1))

/-- Sort scored docs in descending score order, modelling
`sorted(zip(scores, docs), reverse=True)`. -/
def sortByScoreDesc (l : List (Int × Doc)) : List (Int × Doc) :=
  List.insertionSort scoreGE l

/-- Model of `rerank_docs(docs, query)` from `retrieve.py`: score each (query, doc)
pair with the cross-encoder, sort descending by score, keep the first
`settings.top_k`. -/
def rerank_docs (env : Env) (docs : List Doc) (query : String) : List Doc :=
  let pairs := docs.map (fun d => (env.scorer query d.page_content, d))
  let sorted_docs := (sortByScoreDesc pairs).map (fun p => p.2)
  sorted_docs.take env.settings.top_k

/-! ## graph.py — the stage functions -/

/-- Model of `rewrite_query(state)` (the body, before the retry decorator): with no
LLM, fall back to the latest message verbatim; otherwise ask the LLM to
rewrite, failing if the call fails. -/
def rewrite_query (env : Env) (s : State) : Except String State :=
  match env.llm with
  | none => .ok { s with query := lastMessageContent s.messages }
  | some l =>
    let query := lastMessageContent s.messages
    let prompt := "Rewrite this query for better retrieval: " ++ query
    match l.invoke prompt with
    | .ok response => .ok { s with query := response }
    | .error e => .error e

/-- The function `rewrite_query` as wired into the graph: wrapped in
`@retry_with_backoff(retries=3, backoff_in_seconds=1)`. Each attempt runs
the same (deterministic in the model) body. -/
def rewriteRetried (env : Env) (s : State) : Except String State :=
  (retry_with_backoff 3 1 (fun _ => rewrite_query env s)).1

/-- Model of `retrieve_node(state)`: retrieve, rerank, join page contents with
newlines into `context`. -/
def retrieve_node (env : Env) (s : State) : State :=
  let docs := retrieve_docs env s.query env.settings.top_k
  let reranked := rerank_docs env docs s.query
  { s with context := String.intercalate "\n" (reranked.map Doc.page_content) }

/-- Model of `synthesize_node(state)`: synthesize and append the assistant answer. -/
def synthesize_node (env : Env) (s : State) : Except String State :=
  match synthesize_answer env.llm s.query s.context with
  | .ok answer => .ok { s with messages := s.messages ++ [⟨Role.assistant, answer⟩] }
  | .error e => .error e

/-- The refusal message appended by `safety_node`. -/
def refusalMessage : Message :=
  ⟨Role.assistant, "Unsafe response detected. Refusing."⟩

/-- Model of `safety_node(state)`: if the check rejects the last message, append the
refusal; the conversation is never truncated or edited. -/
def safety_node (env : Env) (s : State) : State :=
  if safety_check env.llm (lastMessageContent s.messages) s.context then s
  else { s with messages := s.messages ++ [refusalMessage] }

/-- Model of `decide_exit(state)`: early exit on poor context (`len(context) < 100`). -/
def decide_exit (s : State) : String :=
  if s.context.length < 100 then "end" else "continue"

/-- A run of the compiled graph
(`START → rewrite → retrieve → decide_exit → (synthesize → safety | END)`),
instrumented with the list of stage names that executed. A stage failure
aborts the run with that error. -/
def runGraphTraced (env : Env) (s : State) : List String × Except String State :=
  match rewriteRetried env s with
  | .error e => (["rewrite"], .error e)
  | .ok s1 =>
    let s2 := retrieve_node env s1
    if decide_exit s2 = "end" then
      (["rewrite", "retrieve"], .ok s2)
    else
      match synthesize_node env s2 with
      | .error e => (["rewrite", "retrieve", "synthesize"], .error e)
      | .ok s3 => (["rewrite", "retrieve", "synthesize", "safety"], .ok (safety_node env s3))

/-! ## app.py — the streaming adapter -/

/-- One event observed by `stream_response` from
`graph.astream_events(state, version="v2")`. `chainEnd` is an
`on_chain_end` event whose `data` contains a `"messages"` key;
`stageEvent` covers every event matching none of the three tested
shapes (per-stage notifications, `on_chain_end` without `"messages"`),
which the loop skips. -/
inductive Event where
  | chainStart
  | stageEvent (name : String)
  | chainEnd (messages : List Message)
  | chainError (err : String)
deriving DecidableEq, Repr

/-- Modelled from the spec: the event sequence of one orchestrator run
(the emission machinery lives in the external langgraph runtime; spec §4.1
fixes its contract: a start notification, per-stage notifications, then on
normal completion a terminal event carrying the final state, or a
stage-failed terminal on error). -/
def astreamEvents (env : Env) (s : State) : List Event :=
  let run := runGraphTraced env s
  Event.chainStart :: (run.1.map Event.stageEvent) ++
    match run.2 with
    | .ok final => [Event.chainEnd final.messages]
    | .error e => [Event.chainError e]

/-- The body of the `async for` loop of `stream_response` in `app.py`:
yield the final message and break on a terminal `on_chain_end` carrying
messages; yield an error fragment and break on `on_chain_error`; skip
everything else. -/
def streamResponse : List Event → List String
  | [] => []
  | Event.chainEnd msgs :: _ => ["data: " ++ lastMessageContent msgs ++ "\n\n"]
  | Event.chainError e :: _ => ["data: Error: " ++ e ++ "\n\n"]
  | Event.chainStart :: rest => streamResponse rest
  | Event.stageEvent _ :: rest => streamResponse rest

/-- The initial state built in `stream_response` for a query. -/
def initState (query : String) : State :=
  { messages := [⟨Role.user, query⟩], query := query, context := "" }

/-! ## Concrete fixtures used to instantiate the theorems -/

/-- An environment with given LLM, empty index, constant reranker scores. -/
def mkEnv (llm : Option LLM) : Env :=
  { llm := llm, index := fun _ _ => [], scorer := fun _ _ => 0,
    settings := defaultSettings }

/-- The unconfigured environment (`llm = None` after a failed `get_llm()`). -/
def noLLMEnv : Env := mkEnv none

/-- An LLM whose structured completion always fails schema validation and
whose plain completion returns a fixed raw text. -/
def llmStructFail : LLM :=
  { invoke := fun _ => .ok "raw fallback answer",
    invokeStructured := fun _ => .error "schema validation failed" }

/-- An LLM whose structured completion succeeds with a fixed answer. -/
def llmStructOk : LLM :=
  { invoke := fun _ => .ok "unused",
    invokeStructured := fun _ => .ok ⟨"Paris", ["doc1", "doc2"]⟩ }

/-- An LLM replying "Yes." (affirmative variant, not exactly "yes"). -/
def llmYesDot : LLM :=
  { invoke := fun _ => .ok "Yes.", invokeStructured := fun _ => .error "n/a" }

/-- An LLM replying malformed text (no exception raised). -/
def llmMalformed : LLM :=
  { invoke := fun _ => .ok "maybe", invokeStructured := fun _ => .error "n/a" }

/-- An LLM replying "no" to every prompt. -/
def llmNo : LLM :=
  { invoke := fun _ => .ok "no", invokeStructured := fun _ => .error "n/a" }

/-- An LLM whose every call raises. -/
def llmThrows : LLM :=
  { invoke := fun _ => .error "provider timeout",
    invokeStructured := fun _ => .error "provider timeout" }

/-- A conversation that has just received an assistant answer. -/
def answeredState : State :=
  { messages := [⟨Role.user, "what is the capital?"⟩, ⟨Role.assistant, "The capital is Paris."⟩],
    context := "Paris is the capital of France.", query := "what is the capital?" }

/-- An operation that fails on attempts 1 and 2 and succeeds on attempt 3. -/
def flakyOp : Nat → Except String Nat :=
  fun n => if n < 3 then .error ("fail " ++ toString n) else .ok 42

/-- An operation that fails on every attempt. -/
def alwaysFailOp : Nat → Except String Nat :=
  fun n => .error ("fail " ++ toString n)

/-- A state used to instantiate the retrieval theorem. -/
def c9State : State :=
  { messages := [⟨Role.user, "q"⟩], context := "", query := "q" }

/-- An environment whose index returns three passages and whose reranker
scores a passage by its length. -/
def c9Env : Env :=
  { llm := none,
    index := fun _ _ => [⟨"alpha"⟩, ⟨"be"⟩, ⟨"gammagamma"⟩],
    scorer := fun _ d => Int.ofNat d.length,
    settings := defaultSettings }

/-- A fresh one-message state for the rewrite-fallback witness. -/
def c6State : State :=
  { messages := [⟨Role.user, "raw user question"⟩], context := "", query := "" }

/-! ## Helper lemmas -/

/-- The streaming loop skips every event that is neither a terminal
`on_chain_end` (with messages) nor an `on_chain_error`. -/
theorem streamResponse_stageEvents (names : List String) (evs : List Event) :
    streamResponse (names.map Event.stageEvent ++ evs) = streamResponse evs := by
  induction names with
  | nil => rfl
  | cons n ns ih => simpa [streamResponse] using ih

/-! ## Claims -/

/-- Claim C1: for every input query, the response stream produced by
`stream_response` is non-empty and ends with exactly one terminal fragment:
the content of the final conversation message (the answer or the refusal)
when the workflow run completes, or an explicit error fragment when a stage
fails; the stream is never closed without such a terminal fragment. The
event sequence of the external langgraph runtime is modelled from the
spec's orchestrator contract (`astreamEvents`). -/
theorem stream_always_one_terminal_fragment (env : Env) (q : String) :
    streamResponse (astreamEvents env (initState q)) ≠ [] ∧
    ∃ f, streamResponse (astreamEvents env (initState q)) = [f] ∧
      ((∃ final, (runGraphTraced env (initState q)).2 = Except.ok final ∧
          f = "data: " ++ lastMessageContent final.messages ++ "\n\n") ∨
       (∃ e, (runGraphTraced env (initState q)).2 = Except.error e ∧
          f = "data: Error: " ++ e ++ "\n\n")) := by
  rcases hrun : runGraphTraced env (initState q) with ⟨names, out⟩
  cases out with
  | ok final =>
    have hev : astreamEvents env (initState q) =
        Event.chainStart :: (names.map Event.stageEvent ++ [Event.chainEnd final.messages]) := by
      simp [astreamEvents, hrun]
    have hs : streamResponse (astreamEvents env (initState q)) =
        ["data: " ++ lastMessageContent final.messages ++ "\n\n"] := by
      rw [hev]
      simp [streamResponse, streamResponse_stageEvents]
    exact ⟨by simp [hs], _, hs, Or.inl ⟨final, by simp [hrun], rfl⟩⟩
  | error e =>
    have hev : astreamEvents env (initState q) =
        Event.chainStart :: (names.map Event.stageEvent ++ [Event.chainError e]) := by
      simp [astreamEvents, hrun]
    have hs : streamResponse (astreamEvents env (initState q)) =
        ["data: Error: " ++ e ++ "\n\n"] := by
      rw [hev]
      simp [streamResponse, streamResponse_stageEvents]
    exact ⟨by simp [hs], _, hs, Or.inr ⟨e, by simp [hrun], rfl⟩⟩

/-- Claim C2: after Retrieve, if the length of `context` is below 100 (the
threshold hard-wired in `decide_exit`, matching the spec's default) the run
terminates directly — Synthesize and SafetyCheck never execute — otherwise
it proceeds to Synthesize; and the exit decision is a pure function of the
length of `context` only. -/
theorem early_exit_skips_synthesis (env : Env) (s0 s1 : State)
    (hrw : rewriteRetried env s0 = Except.ok s1) :
    ((retrieve_node env s1).context.length < 100 →
        runGraphTraced env s0 = (["rewrite", "retrieve"], Except.ok (retrieve_node env s1)) ∧
        "synthesize" ∉ (runGraphTraced env s0).1 ∧
        "safety" ∉ (runGraphTraced env s0).1) ∧
    (¬ (retrieve_node env s1).context.length < 100 →
        "synthesize" ∈ (runGraphTraced env s0).1) ∧
    (∀ t u : State, t.context.length = u.context.length → decide_exit t = decide_exit u) := by
  refine ⟨?_, ?_, ?_⟩
  · intro hlen
    have hexit : decide_exit (retrieve_node env s1) = "end" := by
      simp [decide_exit, hlen]
    have hgo : runGraphTraced env s0 =
        (["rewrite", "retrieve"], Except.ok (retrieve_node env s1)) := by
      simp [runGraphTraced, hrw, hexit]
    refine ⟨hgo, ?_, ?_⟩ <;> simp [hgo]
  · intro hlen
    have hexit : decide_exit (retrieve_node env s1) = "continue" := by
      simp [decide_exit, hlen]
    cases hsyn : synthesize_node env (retrieve_node env s1) with
    | ok s3 =>
      have hgo : runGraphTraced env s0 =
          (["rewrite", "retrieve", "synthesize", "safety"],
            Except.ok (safety_node env s3)) := by
        simp [runGraphTraced, hrw, hexit, hsyn]
      simp [hgo]
    | error e =>
      have hgo : runGraphTraced env s0 =
          (["rewrite", "retrieve", "synthesize"], Except.error e) := by
        simp [runGraphTraced, hrw, hexit, hsyn]
      simp [hgo]
  · intro t u h
    simp [decide_exit, h]

/-- Witness for C2: with no LLM configured and an empty index, the run of
the query "hi" stops after Retrieve with the two-stage trace. -/
theorem early_exit_skips_synthesis_witness :
    runGraphTraced noLLMEnv (initState "hi") =
      (["rewrite", "retrieve"],
        Except.ok (retrieve_node noLLMEnv { initState "hi" with query := "hi" })) ∧
    "synthesize" ∉ (runGraphTraced noLLMEnv (initState "hi")).1 ∧
    "safety" ∉ (runGraphTraced noLLMEnv (initState "hi")).1 :=
  (early_exit_skips_synthesis noLLMEnv (initState "hi")
    { initState "hi" with query := "hi" } (by rfl)).1 (by decide)

/-- Counterexample to C3 as stated: a malformed faithfulness reply that is
returned without an exception ("maybe") does not fail open — the check
rejects the answer and the refusal, not the original answer, becomes the
last message of the conversation. -/
theorem safety_malformed_reply_not_fail_open :
    safety_check (some llmMalformed)
        (lastMessageContent answeredState.messages) answeredState.context = false ∧
    lastMessageContent (safety_node (mkEnv (some llmMalformed)) answeredState).messages ≠
      "The capital is Paris." := by
  decide

/-- Claim C3 (amended): the SafetyCheck stage fails open when the
LanguageModel is unavailable or when the faithfulness call raises an error:
the check allows the answer and the state — in particular its last message,
the original assistant answer — is unchanged. (A malformed reply returned
without an exception is instead treated as a negative judgment.) -/
theorem safety_fails_open_on_unavailable_or_error (env : Env) (s : State)
    (h : env.llm = none ∨ ∃ l e, env.llm = some l ∧
        l.invoke (safetyPrompt (lastMessageContent s.messages) s.context) = Except.error e) :
    safety_check env.llm (lastMessageContent s.messages) s.context = true ∧
    safety_node env s = s ∧
    lastMessageContent (safety_node env s).messages = lastMessageContent s.messages := by
  have hcheck : safety_check env.llm (lastMessageContent s.messages) s.context = true := by
    rcases h with h | ⟨l, e, hl, he⟩
    · simp [safety_check, h]
    · simp [safety_check, hl, he]
  have hnode : safety_node env s = s := by
    simp [safety_node, hcheck]
  exact ⟨hcheck, hnode, by rw [hnode]⟩

/-- Witness for the amended C3: an LLM that raises on every call leaves the
conversation, and its final assistant answer, untouched. -/
theorem safety_fails_open_witness :
    safety_check (mkEnv (some llmThrows)).llm
        (lastMessageContent answeredState.messages) answeredState.context = true ∧
    safety_node (mkEnv (some llmThrows)) answeredState = answeredState ∧
    lastMessageContent (safety_node (mkEnv (some llmThrows)) answeredState).messages =
      lastMessageContent answeredState.messages :=
  safety_fails_open_on_unavailable_or_error (mkEnv (some llmThrows)) answeredState
    (Or.inr ⟨llmThrows, "provider timeout", rfl, rfl⟩)

/-- Claim C4: on a negative faithfulness judgment the stage appends the
refusal message "Unsafe response detected. Refusing." as a new trailing
message; the original conversation — including the unsafe answer — is kept
as an unmodified prefix. -/
theorem negative_judgment_appends_refusal (env : Env) (l : LLM) (s : State) (r : String)
    (hllm : env.llm = some l)
    (hinv : l.invoke (safetyPrompt (lastMessageContent s.messages) s.context) = Except.ok r)
    (hneg : pyLower (pyStrip r) ≠ "yes") :
    (safety_node env s).messages = s.messages ++ [refusalMessage] ∧
    refusalMessage = ⟨Role.assistant, "Unsafe response detected. Refusing."⟩ ∧
    (safety_node env s).messages.take s.messages.length = s.messages := by
  have hcheck : safety_check env.llm (lastMessageContent s.messages) s.context = false := by
    simp [safety_check, hllm, hinv, hneg]
  have happ : (safety_node env s).messages = s.messages ++ [refusalMessage] := by
    simp [safety_node, hcheck]
  refine ⟨happ, rfl, ?_⟩
  rw [happ]
  exact List.take_left s.messages [refusalMessage]

/-- Witness for C4: an LLM replying "no" causes the refusal to be appended
after the original two messages. -/
theorem negative_judgment_appends_refusal_witness :
    (safety_node (mkEnv (some llmNo)) answeredState).messages =
      answeredState.messages ++ [refusalMessage] ∧
    refusalMessage = ⟨Role.assistant, "Unsafe response detected. Refusing."⟩ ∧
    (safety_node (mkEnv (some llmNo)) answeredState).messages.take
        answeredState.messages.length = answeredState.messages :=
  negative_judgment_appends_refusal (mkEnv (some llmNo)) llmNo answeredState "no"
    rfl rfl (by decide)

/-- Claim C5: with maxAttempts = 3 and baseDelay = 1, an operation failing
on its first two invocations and succeeding on the third returns the
success value after exactly 2 delayed retries, with delays [1, 2] —
non-decreasing and each bounded by min(baseDelay * 2^attempt, 10); and when
every attempt fails, the last failure is surfaced to the caller. -/
theorem retry_two_failures_then_success (E A : Type) (op : Nat → Except E A)
    (v : A) (e1 e2 : E)
    (h1 : op 1 = Except.error e1) (h2 : op 2 = Except.error e2)
    (h3 : op 3 = Except.ok v) :
    retry_with_backoff 3 1 op = (Except.ok v, [1, 2]) ∧
    List.Chain' (fun a b => a ≤ b) [1, 2] ∧
    (∀ n : Nat, waitExponential 1 1 10 (n + 1) ≤ min (1 * 2 ^ n) 10) ∧
    (∀ (op' : Nat → Except E A) (f : Nat → E), (∀ n, op' n = Except.error (f n)) →
      retry_with_backoff 3 1 op' = (Except.error (f 3), [1, 2])) := by
  refine ⟨?_, by simp [List.chain'_cons], ?_, ?_⟩
  · simp [retry_with_backoff, retryGo, h1, h2, h3, waitExponential]
  · intro n
    have h1le : 1 ≤ min (1 * 2 ^ n) 10 := by
      refine le_min ?_ (by norm_num)
      simpa using Nat.one_le_two_pow
    simp only [waitExponential, Nat.add_sub_cancel]
    omega
  · intro op' f hf
    simp [retry_with_backoff, retryGo, hf 1, hf 2, hf 3, waitExponential]

/-- Witness for C5: the concrete fail-fail-succeed operation returns 42
with delays [1, 2], and the always-failing operation surfaces the failure
of attempt 3. -/
theorem retry_two_failures_then_success_witness :
    retry_with_backoff 3 1 flakyOp = (Except.ok 42, [1, 2]) ∧
    retry_with_backoff 3 1 alwaysFailOp = (Except.error ("fail " ++ toString 3), [1, 2]) :=
  ⟨(retry_two_failures_then_success String Nat flakyOp 42 "fail 1" "fail 2"
      rfl rfl rfl).1,
   (retry_two_failures_then_success String Nat flakyOp 42 "fail 1" "fail 2"
      rfl rfl rfl).2.2.2 alwaysFailOp (fun n => "fail " ++ toString n) (fun _ => rfl)⟩

/-- Claim C6: with a non-empty conversation and no LanguageModel configured,
the Rewrite stage succeeds and sets `query` to the content of the latest
message verbatim — both the bare stage body and its retry-wrapped form. -/
theorem rewrite_falls_back_to_raw_message (env : Env) (s : State)
    (pre : List Message) (m : Message)
    (hllm : env.llm = none) (hmsgs : s.messages = pre ++ [m]) :
    rewrite_query env s = Except.ok { s with query := m.content } ∧
    rewriteRetried env s = Except.ok { s with query := m.content } := by
  have h : rewrite_query env s = Except.ok { s with query := m.content } := by
    simp [rewrite_query, hllm, lastMessageContent, hmsgs]
  exact ⟨h, by simp [rewriteRetried, retry_with_backoff, retryGo, h]⟩

/-- Witness for C6: the raw user question becomes the query verbatim. -/
theorem rewrite_falls_back_to_raw_message_witness :
    rewrite_query noLLMEnv c6State = Except.ok { c6State with query := "raw user question" } ∧
    rewriteRetried noLLMEnv c6State = Except.ok { c6State with query := "raw user question" } :=
  rewrite_falls_back_to_raw_message noLLMEnv c6State []
    ⟨Role.user, "raw user question"⟩ rfl rfl

/-- Claim C7: with no LanguageModel configured, `synthesize_answer` returns
(rather than failing) the deterministic error-indicating answer, which
embeds the original query text. -/
theorem synthesize_unconfigured_deterministic_error (q c : String) :
    synthesize_answer none q c = Except.ok ("Error: LLM not configured. Query: " ++ q) ∧
    ∃ pre, "Error: LLM not configured. Query: " ++ q = pre ++ q :=
  ⟨rfl, "Error: LLM not configured. Query: ", rfl⟩

/-- Claim C8: if the structured completion fails, the stage makes a second,
unstructured completion call with the same prompt and returns its raw text
as the answer (no citation suffix); if the structured completion succeeds,
the answer is the structured answer text followed by its citation list. -/
theorem synthesize_schema_fallback (l : LLM) (q c : String) :
    (∀ e r, l.invokeStructured (synthPrompt q c) = Except.error e →
        l.invoke (synthPrompt q c) = Except.ok r →
        synthesize_answer (some l) q c = Except.ok r) ∧
    (∀ sa : StructuredAnswer, l.invokeStructured (synthPrompt q c) = Except.ok sa →
        synthesize_answer (some l) q c =
          Except.ok (sa.answer ++ " (Citations: " ++
            String.intercalate ", " sa.citations ++ ")")) := by
  constructor
  · intro e r he hr
    simp [synthesize_answer, he, hr]
  · intro sa hsa
    simp [synthesize_answer, hsa]

/-- Witness for C8: a schema-failing LLM yields the raw fallback text; a
schema-succeeding LLM yields the formatted answer with citations. -/
theorem synthesize_schema_fallback_witness :
    synthesize_answer (some llmStructFail) "q" "c" = Except.ok "raw fallback answer" ∧
    synthesize_answer (some llmStructOk) "q" "c" =
      Except.ok ("Paris" ++ " (Citations: " ++
        String.intercalate ", " ["doc1", "doc2"] ++ ")") :=
  ⟨(synthesize_schema_fallback llmStructFail "q" "c").1
      "schema validation failed" "raw fallback answer" rfl rfl,
   (synthesize_schema_fallback llmStructOk "q" "c").2 ⟨"Paris", ["doc1", "doc2"]⟩ rfl⟩

/-- Claim C10: when the LanguageModel is configured and raises no exception,
the check allows the answer exactly when the reply, stripped and lowercased,
is the string "yes"; any other reply is a negative judgment, upon which the
refusal is appended to the conversation. -/
theorem safety_allow_iff_reply_is_yes (env : Env) (l : LLM) (s : State) (r : String)
    (hllm : env.llm = some l)
    (hinv : l.invoke (safetyPrompt (lastMessageContent s.messages) s.context) = Except.ok r) :
    (safety_check env.llm (lastMessageContent s.messages) s.context = true ↔
        pyLower (pyStrip r) = "yes") ∧
    (pyLower (pyStrip r) ≠ "yes" →
        safety_node env s = { s with messages := s.messages ++ [refusalMessage] }) := by
  constructor
  · simp [safety_check, hllm, hinv]
  · intro hneg
    have hcheck : safety_check env.llm (lastMessageContent s.messages) s.context = false := by
      simp [safety_check, hllm, hinv, hneg]
    simp [safety_node, hcheck]

/-- Witness for C10: the affirmative variant "Yes." is not exactly "yes"
after stripping and lowercasing, so the refusal is appended. -/
theorem safety_allow_iff_reply_is_yes_witness :
    safety_node (mkEnv (some llmYesDot)) answeredState =
      { answeredState with messages := answeredState.messages ++ [refusalMessage] } :=
  (safety_allow_iff_reply_is_yes (mkEnv (some llmYesDot)) llmYesDot answeredState "Yes."
      rfl rfl).2 (by decide)

/-- Claim C9: for every state, the Retrieve stage queries the index with the
configured top-k (default 5), reranks the candidates against the query,
keeps at most top-k results, and sets `context` to their texts joined by
newlines in descending relevance order; every kept document comes from the
candidate set. -/
theorem retrieve_reranks_topk_descending (env : Env) (s : State) :
    retrieve_node env s =
      { s with context := (String.intercalate "\n"
          ((rerank_docs env (retrieve_docs env s.query env.settings.top_k) s.query).map
            Doc.page_content)) } ∧
    (rerank_docs env (retrieve_docs env s.query env.settings.top_k) s.query).length ≤
      env.settings.top_k ∧
    defaultSettings.top_k = 5 ∧
    List.Pairwise
      (fun a b => env.scorer s.query b.page_content ≤ env.scorer s.query a.page_content)
      (rerank_docs env (retrieve_docs env s.query env.settings.top_k) s.query) ∧
    (∀ d, d ∈ rerank_docs env (retrieve_docs env s.query env.settings.top_k) s.query →
      d ∈ retrieve_docs env s.query env.settings.top_k) := by
  have ttot : IsTotal (Int × Doc) scoreGE := ⟨fun a b => le_total b.1 a.1⟩
  have ttrans : IsTrans (Int × Doc) scoreGE := ⟨fun a b c hab hbc => le_trans hbc hab⟩
  refine ⟨rfl, ?_, rfl, ?_, ?_⟩
  · simp only [rerank_docs]
    exact List.length_take_le env.settings.top_k
      ((sortByScoreDesc ((retrieve_docs env s.query env.settings.top_k).map
        (fun d => (env.scorer s.query d.page_content, d)))).map (fun p => p.2))
  · have hshape : ∀ p ∈ sortByScoreDesc
        ((retrieve_docs env s.query env.settings.top_k).map
          (fun d => (env.scorer s.query d.page_content, d))),
        p.1 = env.scorer s.query p.2.page_content := by
      intro p hp
      have hp' : p ∈ (retrieve_docs env s.query env.settings.top_k).map
          (fun d => (env.scorer s.query d.page_content, d)) :=
        (List.perm_insertionSort scoreGE _).mem_iff.mp hp
      obtain ⟨d, _, rfl⟩ := List.mem_map.mp hp'
      rfl
    have hsorted : List.Pairwise scoreGE (sortByScoreDesc
        ((retrieve_docs env s.query env.settings.top_k).map
          (fun d => (env.scorer s.query d.page_content, d)))) :=
      List.sorted_insertionSort scoreGE _
    have hmapped : List.Pairwise
        (fun a b => env.scorer s.query b.page_content ≤ env.scorer s.query a.page_content)
        ((sortByScoreDesc ((retrieve_docs env s.query env.settings.top_k).map
          (fun d => (env.scorer s.query d.page_content, d)))).map (fun p => p.2)) := by
      rw [List.pairwise_map]
      refine hsorted.imp_of_mem ?_
      intro a b ha hb hab
      rw [← hshape a ha, ← hshape b hb]
      exact hab
    exact hmapped.sublist (List.take_sublist _ _)
  · intro d hd
    have hd' : d ∈ (sortByScoreDesc ((retrieve_docs env s.query env.settings.top_k).map
        (fun p => (env.scorer s.query p.page_content, p)))).map (fun p => p.2) :=
      List.mem_of_mem_take hd
    obtain ⟨p, hp, rfl⟩ := List.mem_map.mp hd'
    have hp' : p ∈ (retrieve_docs env s.query env.settings.top_k).map
        (fun d => (env.scorer s.query d.page_content, d)) :=
      (List.perm_insertionSort scoreGE _).mem_iff.mp hp
    obtain ⟨d0, hd0, rfl⟩ := List.mem_map.mp hp'
    exact hd0

/-- Witness for C9: with the concrete length-scoring environment the three
passages are kept in descending length order and all come from the index. -/
theorem retrieve_reranks_topk_descending_witness :
    retrieve_node c9Env c9State =
      { c9State with context := (String.intercalate "\n"
          ((rerank_docs c9Env (retrieve_docs c9Env c9State.query c9Env.settings.top_k)
            c9State.query).map Doc.page_content)) } ∧
    (rerank_docs c9Env (retrieve_docs c9Env c9State.query c9Env.settings.top_k)
      c9State.query).length ≤ c9Env.settings.top_k :=
  ⟨(retrieve_reranks_topk_descending c9Env c9State).1,
   (retrieve_reranks_topk_descending c9Env c9State).2.1⟩

end RAG
